import Mathlib

/-!
Verification of the sfn-worker process-pool supervisor.

The definitions below are a shallow embedding of `src/index.js` (the build
whose line numbers the claims cite; we call it the *main build*) and, where a
claim cites it, of `src/dist/index.js` (the *dist build*).  JavaScript exit
codes are `Option Int` (`none` models a `null`/absent code), signals are
`Option String`, registries are association lists, and the master-side
lifecycle controller is a step function on an explicit master state.
-/

/- String constants used throughout (event names, control strings, sample
inputs).  They mirror the string literals of the source. -/

def evOnline : String := "online"

def evError : String := "error"

def evExit : String := "exit"

def ctlReboot : String := "----reboot----"

def sigKill : String := "SIGKILL"

/- Method names appearing in the error messages thrown by the master-only
statics (and, for `getWorker`, the `getChannel` name that its master-side
error message actually mentions). -/

def evEmitName : String := "emit"

def evToName : String := "to"

def evBroadcastName : String := "broadcast"

def evGetWorkersName : String := "getWorkers"

def evGetChannelName : String := "getChannel"

/-- Worker lifecycle states: `connecting` on construction, `online` once the
child signals readiness, `closed` on terminal exit or reboot. -/
inductive WorkerState where
  | connecting
  | online
  | closed
deriving DecidableEq, Repr

/-- Serializable values carried in message `data` arrays.  `handleDesc` is the
serialized form of a worker handle (as in the bootstrap message
`{event: "online", data: [target]}`). -/
inductive Value where
  | num (n : Int)
  | str (s : String)
  | handleDesc (id : String) (keepAlive : Bool) (state : WorkerState)
deriving DecidableEq, Repr

/-- A master-side worker handle: `id`, `keepAlive`, `state`, the one-shot
`receivers` slot (`null` in JS is `none` here), and the handle's own
event-emitter listener list (the listeners registered through `super.on` for
`error`/`exit`; we only track their identity and order, as opaque tokens). -/
structure Handle where
  id : String
  keepAlive : Bool
  state : WorkerState
  receivers : Option (List String)
  listeners : List Nat
deriving DecidableEq, Repr

/-- A message sent from the master to a child over its channel: either a
structured `{event, data}` object or a bare string (the reboot control
message is sent as the bare string `"----reboot----"`). -/
inductive ChildMsg where
  | obj (event : String) (data : List Value)
  | str (s : String)
deriving DecidableEq, Repr

/-- A message a worker process sends to the master via `process.send`:
`{id, event, data}`, the `----transmit----` wrapper, or the
`----broadcast----` wrapper. -/
inductive WorkerToMasterMsg where
  | user (id : String) (event : String) (data : List Value)
  | transmit (id : String) (receivers : List String) (event : String) (data : List Value)
  | broadcastReq (id : String) (event : String) (data : List Value)
deriving DecidableEq, Repr

/-- The reserved-lifecycle-name check performed at the top of `emit` and
`broadcast` in `src/index.js`:
`event === "online" || event === "error" || event === "exit"`. -/
def reservedLifecycle (event : String) : Bool :=
  event == evOnline || event == evError || event == evExit

/-- JavaScript truthiness of an exit `code`: an absent (`null`) code is falsy,
an integer code is truthy exactly when it is non-zero. -/
def codeTruthy : Option Int → Bool
  | none => false
  | some c => c != 0

/-- The exit classification of `createWorker`'s exit handler
(`src/index.js:495`): `(code || signal == "SIGKILL") && keepAlive ||
code === 826`.  `&&` binds tighter than `||` in JavaScript. -/
def exitRespawns (code : Option Int) (signal : Option String) (keepAlive : Bool) : Bool :=
  ((codeTruthy code || signal == some sigKill) && keepAlive) || code == some (826 : Int)

/-- The guard of the static `exit` forwarding (`src/index.js:300`):
`!code || (code && !keepAlive)` under JavaScript truthiness. -/
def staticExitForwards (code : Option Int) (keepAlive : Bool) : Bool :=
  !(codeTruthy code) || (codeTruthy code && !keepAlive)

/-- What a worker process does on an inbound channel message
(`src/index.js:530`): a structured message with a truthy `event` is re-emitted
on the local process bus; the bare string `"----reboot----"` terminates the
process with exit code 826; anything else is ignored. -/
inductive WorkerAction where
  | emitLocal (event : String) (data : List Value)
  | exitProcess (code : Int)
  | noop
deriving DecidableEq, Repr

def workerOnMessage : ChildMsg → WorkerAction
  | ChildMsg.obj event data => if event == "" then WorkerAction.noop else WorkerAction.emitLocal event data
  | ChildMsg.str s => if s == ctlReboot then WorkerAction.exitProcess 826 else WorkerAction.noop

/- Association-list registries (`Workers`, `ClusterWorkers`, `WorkerPids` are
plain JS objects keyed by id or pid). -/

def alookup {κ α : Type} [DecidableEq κ] (k : κ) : List (κ × α) → Option α
  | [] => none
  | (k', v) :: rest => if k' = k then some v else alookup k rest

def aremove {κ α : Type} [DecidableEq κ] (k : κ) : List (κ × α) → List (κ × α)
  | [] => []
  | (k', v) :: rest => if k' = k then aremove k rest else (k', v) :: aremove k rest

def aset {κ α : Type} [DecidableEq κ] (k : κ) (v : α) (l : List (κ × α)) : List (κ × α) :=
  (k, v) :: aremove k l

theorem alookup_aremove_self {κ α : Type} [DecidableEq κ] (k : κ) (l : List (κ × α)) :
    alookup k (aremove k l) = none := by
  induction l with
  | nil => rfl
  | cons p rest ih =>
    obtain ⟨k', v⟩ := p
    by_cases h : k' = k
    · simp [aremove, h, ih]
    · simp [aremove, alookup, h, ih]

theorem alookup_aremove_ne {κ α : Type} [DecidableEq κ] {k k' : κ} (l : List (κ × α))
    (h : k' ≠ k) : alookup k' (aremove k l) = alookup k' l := by
  induction l with
  | nil => rfl
  | cons p rest ih =>
    obtain ⟨k₀, v⟩ := p
    by_cases h0 : k₀ = k
    · subst h0
      simp [aremove, alookup, Ne.symm h, ih]
    · by_cases h1 : k₀ = k'
      · subst h1
        simp [aremove, alookup, h0]
      · simp [aremove, alookup, h0, h1, ih]

theorem alookup_aset_self {κ α : Type} [DecidableEq κ] (k : κ) (v : α) (l : List (κ × α)) :
    alookup k (aset k v l) = some v := by
  simp [aset, alookup]

theorem alookup_aset_ne {κ α : Type} [DecidableEq κ] {k k' : κ} (v : α) (l : List (κ × α))
    (h : k' ≠ k) : alookup k' (aset k v l) = alookup k' l := by
  simp [aset, alookup, Ne.symm h, alookup_aremove_ne l h]

/- The emitter facade (`Worker.prototype.emit`, `to`, and the master-only
statics), translated from `src/index.js`. -/

/-- Result of a master-side instance `emit` (`src/index.js:109`): the boolean
return value, the channel sends performed (`ClusterWorkers[id].send`), and the
handle as left behind (its `receivers` slot may have been consumed). -/
structure EmitOut where
  result : Bool
  sends : List (String × ChildMsg)
  handle : Handle
deriving DecidableEq, Repr

/-- `Worker.prototype.emit` in the master process: reserved lifecycle names
return `false` up front; with a `receivers` set, send to each listed id that
has a channel and clear the set; otherwise send to the handle's own channel
when it exists. -/
def masterEmit (channels : List (String × Nat)) (h : Handle) (event : String)
    (data : List Value) : EmitOut :=
  if reservedLifecycle event then ⟨false, [], h⟩
  else
    match h.receivers with
    | some rs =>
      ⟨true,
       (rs.filter (fun i => (alookup i channels).isSome)).map
         (fun i => (i, ChildMsg.obj event data)),
       { h with receivers := none }⟩
    | none =>
      if (alookup h.id channels).isSome then ⟨true, [(h.id, ChildMsg.obj event data)], h⟩
      else ⟨true, [], h⟩

/-- Result of a worker-side instance `emit`: return value, the messages sent
to the master, and the handle left behind. -/
structure WEmitOut where
  result : Bool
  sends : List WorkerToMasterMsg
  handle : Handle
deriving DecidableEq, Repr

/-- `Worker.prototype.emit` in a worker process (`src/index.js:123`): with a
`receivers` set it sends a single `----transmit----` wrapper carrying the set;
otherwise a `{id, event, data}` message.  Note that, unlike the master branch
(and unlike the dist build), this branch never resets `this.receivers`. -/
def workerEmit (h : Handle) (event : String) (data : List Value) : WEmitOut :=
  if reservedLifecycle event then ⟨false, [], h⟩
  else
    match h.receivers with
    | some rs => ⟨true, [WorkerToMasterMsg.transmit h.id rs event data], h⟩
    | none => ⟨true, [WorkerToMasterMsg.user h.id event data], h⟩

/-- An argument to `to(...)`: either a worker id string or a worker handle
(whose id is then extracted). -/
inductive ToArg where
  | idArg (id : String)
  | workerArg (h : Handle)
deriving DecidableEq, Repr

def toIds (args : List ToArg) : List String :=
  args.map fun a => match a with
    | ToArg.idArg i => i
    | ToArg.workerArg h => h.id

/-- `Worker.prototype.to` (`src/index.js:145`), after the single-array
argument has been flattened: store the listed ids on the handle's `receivers`
slot. -/
def Handle.to (h : Handle) (args : List ToArg) : Handle :=
  { h with receivers := some (toIds args) }

/-- Whether the current process is the master or a worker. -/
inductive Role where
  | master
  | worker
deriving DecidableEq, Repr

/-- The synchronous errors the statics can raise: `ReferenceError` for a
master-only static called in a worker, and the plain `Error` thrown by
`getWorker` in the master (whose message names `getChannel`). -/
inductive CallError where
  | refError (method : String)
  | usageError (method : String)
deriving DecidableEq, Repr

/-- Result of the static `broadcast` (`src/index.js:398`): thrown error or
boolean, plus the channel sends performed. -/
structure StaticBroadcastOut where
  result : Except CallError Bool
  sends : List (String × ChildMsg)
deriving Repr

/-- Static `Worker.broadcast`: reserved lifecycle names return `false`; in the
master, fan out to every channel; in a worker, throw a `ReferenceError`
(having sent nothing). -/
def staticBroadcast (role : Role) (channels : List (String × Nat)) (event : String)
    (data : List Value) : StaticBroadcastOut :=
  if reservedLifecycle event then ⟨Except.ok false, []⟩
  else
    match role with
    | Role.master => ⟨Except.ok true, channels.map (fun p => (p.1, ChildMsg.obj event data))⟩
    | Role.worker => ⟨Except.error (CallError.refError evBroadcastName), []⟩

/-- Result of the static `emit` (`src/index.js:345`): thrown error or boolean,
the channel sends, and the class-level `receivers` slot as left behind. -/
structure StaticEmitOut where
  result : Except CallError Bool
  sends : List (String × ChildMsg)
  receivers : Option (List String)
deriving Repr

/-- Static `Worker.emit`: reserved lifecycle names return `false`; in the
master, no receivers set means delegate to `broadcast`, otherwise send to each
listed id that has a channel and clear the set; in a worker, throw a
`ReferenceError`. -/
def staticEmit (role : Role) (channels : List (String × Nat))
    (receivers : Option (List String)) (event : String) (data : List Value) : StaticEmitOut :=
  if reservedLifecycle event then ⟨Except.ok false, [], receivers⟩
  else
    match role with
    | Role.master =>
      match receivers with
      | none =>
        let b := staticBroadcast Role.master channels event data
        ⟨b.result, b.sends, none⟩
      | some rs =>
        ⟨Except.ok true,
         (rs.filter (fun i => (alookup i channels).isSome)).map
           (fun i => (i, ChildMsg.obj event data)),
         none⟩
    | Role.worker => ⟨Except.error (CallError.refError evEmitName), [], receivers⟩

/-- Static `Worker.to` (`src/index.js:373`), arguments already flattened:
master-only; stores the listed ids on the class-level `receivers` slot. -/
def staticTo (role : Role) (_receivers : Option (List String)) (args : List ToArg) :
    Except CallError (Option (List String)) :=
  match role with
  | Role.master => Except.ok (some (toIds args))
  | Role.worker => Except.error (CallError.refError evToName)

/-- `getValues(Workers)` applied to the master's registry: the list of
registered handles. -/
def getWorkersMainMaster (workers : List (String × Handle)) : List Handle :=
  workers.map Prod.snd

/-- Static `Worker.getWorkers` of the main build (`src/index.js:422`), called
with a callback: in the master the callback receives `getValues(Workers)`
(every registered handle, with no state filter, synchronously); in a worker it
throws a `ReferenceError`. -/
def staticGetWorkersMain (role : Role) (workers : List (String × Handle)) :
    Except CallError (List Handle) :=
  match role with
  | Role.master => Except.ok (getWorkersMainMaster workers)
  | Role.worker => Except.error (CallError.refError evGetWorkersName)

/-- `Worker.prototype.isConnected` of the dist build
(`src/dist/index.js:33`): `this.state == "online"`. -/
def Handle.isConnected (h : Handle) : Bool :=
  h.state == WorkerState.online

/-- The master branch of the dist build's static `getWorkers`
(`src/dist/index.js:329`): on the next tick the callback receives
`filter(values(Workers), worker => worker.isConnected())`. -/
def getWorkersDistMaster (workers : List (String × Handle)) : List Handle :=
  (workers.map Prod.snd).filter Handle.isConnected

/-- Outcome of the worker-side static `getWorker`: either a handle delivered
to the callback, or the call deferred until the first `----online----`. -/
inductive GetWorkerOut where
  | delivered (h : Handle)
  | deferred
deriving DecidableEq, Repr

/-- Static `Worker.getWorker` of the main build (`src/index.js:446`), called
with a callback: in the master it throws an `Error` (whose message names
`getChannel`); in a worker it delivers the first registered handle, or defers
until `----online----` when none exists yet. -/
def staticGetWorker (role : Role) (workers : List (String × Handle)) :
    Except CallError GetWorkerOut :=
  match role with
  | Role.master => Except.error (CallError.usageError evGetChannelName)
  | Role.worker =>
    match (workers.map Prod.snd).head? with
    | some h => Except.ok (GetWorkerOut.delivered h)
    | none => Except.ok GetWorkerOut.deferred

/- The master-side lifecycle controller (`createWorker` and the `cluster`
event handlers of `src/index.js`), as a step function on an explicit master
state.  A child process is identified by its pid; `live` lists the pids of
children that have been forked and have not yet exited. -/

/-- A `WorkerPids` entry: `{id, keepAlive, reborn}` recorded at fork time
(`src/index.js:486`). -/
structure PidRecord where
  id : String
  keepAlive : Bool
  reborn : Bool
deriving DecidableEq, Repr

/-- The master process state: the three registries, the set of live child
pids, and a fresh-pid counter. -/
structure MState where
  workers : List (String × Handle)
  channels : List (String × Nat)
  pids : List (Nat × PidRecord)
  live : List Nat
  nextPid : Nat
deriving DecidableEq, Repr

/-- The initial master state: empty registries, no children. -/
def initialMState : MState :=
  ⟨[], [], [], [], 0⟩

/-- Observable effects of a master-side step: invocations of listeners
registered through the static `on` (`staticOnline`, `staticExit`), an `exit`
delivery to the listeners of the handle's own emitter (`handleExit`, carrying
the handle as `this` — in the main build this never actually happens, see
`handleEmitExitAttempt`), the mutation of a handle object's `state` field to
`"closed"` on the terminal path (`closedHandle`; the object stays referenced
by user code even after its registry entries are deleted), and channel sends
to a child. -/
inductive MasterEvent where
  | staticOnline (id : String)
  | staticExit (id : String) (code : Option Int) (signal : Option String)
  | handleExit (h : Handle) (code : Option Int) (signal : Option String)
  | closedHandle (h : Handle)
  | sent (id : String) (msg : ChildMsg)
deriving DecidableEq, Repr

/-- `createWorker(target, reborn)` (`src/index.js:480`): fork a child (a fresh
pid), register the handle under its id, point the id's channel at the new
child, and record `{id, keepAlive, reborn}` under the new pid. -/
def createWorkerM (s : MState) (target : Handle) (reborn : Bool) : MState × Nat :=
  ({ workers := aset target.id target s.workers,
     channels := aset target.id s.nextPid s.channels,
     pids := aset s.nextPid ⟨target.id, target.keepAlive, reborn⟩ s.pids,
     live := s.nextPid :: s.live,
     nextPid := s.nextPid + 1 }, s.nextPid)

/-- The terminal path's internal `target.emit("exit", code, signal)` call
(`src/index.js:500`): `Worker.prototype.emit` overrides
`EventEmitter.prototype.emit` and the class never calls `super.emit`, so this
call dispatches to the override, whose reserved-name guard
(`src/index.js:110`) returns `false` before any listener dispatch.  The
`exit` deliveries this call produces to listeners registered via
`handle.on("exit", …)` are therefore none: the `handleExit` branch below is
dead. -/
def handleEmitExitAttempt (h : Handle) (code : Option Int) (signal : Option String) :
    List MasterEvent :=
  if reservedLifecycle evExit then []
  else [MasterEvent.handleExit h code signal]

/-- The child `exit` handling (`src/index.js:494`) combined with the static
`exit` forwarding (`src/index.js:297`): classify the exit; on the respawn
side re-fork the same handle with `reborn = true`; on the terminal side set
the handle state to `closed` (the `closedHandle` event records that field
mutation), call the overridden `emit` with `"exit"` (swallowed by the
reserved-name guard, see `handleEmitExitAttempt`), and delete the `Workers`
and `ClusterWorkers` entries.  The static `exit` listener fires whenever
`!code || (code && !keepAlive)`. -/
def exitTransition (s : MState) (pid : Nat) (r : PidRecord) (h : Handle)
    (code : Option Int) (signal : Option String) : MState × List MasterEvent :=
  let sdead : MState := { s with live := s.live.erase pid }
  let staticEvs : List MasterEvent :=
    if staticExitForwards code r.keepAlive then [MasterEvent.staticExit r.id code signal] else []
  if exitRespawns code signal r.keepAlive then
    ((createWorkerM sdead h true).1, staticEvs)
  else
    let h2 : Handle := { h with state := WorkerState.closed }
    ({ sdead with
        workers := aremove r.id sdead.workers,
        channels := aremove r.id sdead.channels },
     MasterEvent.closedHandle h2 :: (handleEmitExitAttempt h2 code signal ++ staticEvs))

/-- The child `online` handling (`src/index.js:488`) combined with the static
`online` forwarding (`src/index.js:287`): set the handle state to `online` and
send the bootstrap message `{event: "online", data: [target]}`; the static
`online` listener fires only when the pid record is not `reborn`. -/
def onlineTransition (s : MState) (r : PidRecord) (h : Handle) : MState × List MasterEvent :=
  let h' : Handle := { h with state := WorkerState.online }
  ({ s with workers := aset r.id h' s.workers },
   MasterEvent.sent r.id (ChildMsg.obj evOnline [Value.handleDesc h'.id h'.keepAlive h'.state])
     :: (if r.reborn then [] else [MasterEvent.staticOnline r.id]))

/-- The inputs the master state machine reacts to: a `new Worker(id,
keepAlive)` call, the cluster-level `online` and `exit` events of a child, and
the master-side `reboot()` and `exit()` handle methods. -/
inductive MasterStep where
  | construct (id : String) (keepAlive : Bool)
  | clusterOnline (pid : Nat)
  | clusterExit (pid : Nat) (code : Option Int) (signal : Option String)
  | rebootCall (id : String)
  | exitCall (id : String)
deriving DecidableEq, Repr

/-- One master-side step.  `none` models a JavaScript runtime error (a lookup
of an absent registry entry that the source would crash on) or an event that
cannot occur (a lifecycle event for a pid that is not a live child).

The constructor guard is `!Workers[id] || Workers[id] === "closed"`
(`src/index.js:39`); `Workers[id]` is a handle object and never the string
`"closed"`, so the second disjunct is always false and a fork happens exactly
when the id is unregistered. -/
def masterStep (s : MState) : MasterStep → Option (MState × List MasterEvent)
  | MasterStep.construct id keepAlive =>
    if (alookup id s.workers).isNone then
      some ((createWorkerM s ⟨id, keepAlive, WorkerState.connecting, none, []⟩ false).1, [])
    else some (s, [])
  | MasterStep.clusterOnline pid =>
    if pid ∈ s.live then
      match alookup pid s.pids with
      | none => none
      | some r =>
        match alookup r.id s.workers with
        | none => none
        | some h => some (onlineTransition s r h)
    else none
  | MasterStep.clusterExit pid code signal =>
    if pid ∈ s.live then
      match alookup pid s.pids with
      | none => none
      | some r =>
        match alookup r.id s.workers with
        | none => none
        | some h => some (exitTransition s pid r h code signal)
    else none
  | MasterStep.rebootCall id =>
    match alookup id s.workers, alookup id s.channels with
    | some h, some _ =>
      some ({ s with workers := aset id { h with state := WorkerState.closed } s.workers },
            [MasterEvent.sent id (ChildMsg.str ctlReboot)])
    | _, _ => none
  | MasterStep.exitCall id =>
    match alookup id s.channels with
    | some _ => some (s, [])
    | none => none

/-- The master states reachable from the initial state by master-side steps. -/
inductive ReachableM : MState → Prop where
  | init : ReachableM initialMState
  | step : ∀ {s a s' evs}, ReachableM s → masterStep s a = some (s', evs) → ReachableM s'

/-- Structural well-formedness of a master state: live pids are distinct and
below the fresh-pid counter, and every live pid has a pid record whose worker
id both owns a channel pointing back at that pid and is registered in
`Workers`. -/
def WFState (s : MState) : Prop :=
  s.live.Nodup ∧
  (∀ p, p ∈ s.live → p < s.nextPid) ∧
  (∀ p, p ∈ s.live → ∃ r, alookup p s.pids = some r ∧
    alookup r.id s.channels = some p ∧ (alookup r.id s.workers).isSome) ∧
  (∀ id h, alookup id s.workers = some h → h.id = id)

/- Step-equation lemmas: each reduces `masterStep` under the registry lookups
that an execution of the corresponding source handler performs. -/

theorem masterStep_online_eq {s : MState} {pid : Nat} {r : PidRecord} {h : Handle}
    (hlive : pid ∈ s.live) (hr : alookup pid s.pids = some r)
    (hw : alookup r.id s.workers = some h) :
    masterStep s (MasterStep.clusterOnline pid) = some (onlineTransition s r h) := by
  simp [masterStep, hlive, hr, hw]

theorem masterStep_exit_eq {s : MState} {pid : Nat} {r : PidRecord} {h : Handle}
    {code : Option Int} {signal : Option String}
    (hlive : pid ∈ s.live) (hr : alookup pid s.pids = some r)
    (hw : alookup r.id s.workers = some h) :
    masterStep s (MasterStep.clusterExit pid code signal) =
      some (exitTransition s pid r h code signal) := by
  simp [masterStep, hlive, hr, hw]

theorem masterStep_construct_registered {s : MState} {id : String} {keepAlive : Bool}
    (hw : (alookup id s.workers).isSome) :
    masterStep s (MasterStep.construct id keepAlive) = some (s, []) := by
  simp [masterStep, Option.isNone_iff_eq_none]
  intro hn
  rw [hn] at hw
  simp at hw

theorem masterStep_reboot_eq {s : MState} {id : String} {h : Handle} {p : Nat}
    (hw : alookup id s.workers = some h) (hc : alookup id s.channels = some p) :
    masterStep s (MasterStep.rebootCall id) =
      some ({ s with workers := aset id { h with state := WorkerState.closed } s.workers },
            [MasterEvent.sent id (ChildMsg.str ctlReboot)]) := by
  simp [masterStep, hw, hc]

theorem masterStep_exitCall_eq {s : MState} {id : String} {p : Nat}
    (hc : alookup id s.channels = some p) :
    masterStep s (MasterStep.exitCall id) = some (s, []) := by
  simp [masterStep, hc]

/- Preservation of well-formedness along steps, and hence on every reachable
state. -/

theorem wf_initial : WFState initialMState := by
  refine ⟨List.nodup_nil, ?_, ?_, ?_⟩
  · intro p hp
    simp [initialMState] at hp
  · intro p hp
    simp [initialMState] at hp
  · intro i h hlk
    simp [initialMState, alookup] at hlk

theorem alookup_aset_isSome {κ α : Type} [DecidableEq κ] {k' : κ} (k : κ) (v : α)
    (l : List (κ × α)) (h : (alookup k' l).isSome) : (alookup k' (aset k v l)).isSome := by
  by_cases hk : k' = k
  · subst hk
    rw [alookup_aset_self]
    rfl
  · rw [alookup_aset_ne _ _ hk]
    exact h

theorem wf_createWorkerM {s : MState} (target : Handle) (reborn : Bool)
    (hwf : WFState s)
    (hnolive : ∀ p r, p ∈ s.live → alookup p s.pids = some r → r.id ≠ target.id) :
    WFState (createWorkerM s target reborn).1 := by
  obtain ⟨hnd, hlt, hrec, hid⟩ := hwf
  refine ⟨?_, ?_, ?_, ?_⟩
  · simp only [createWorkerM]
    exact List.Nodup.cons (fun hmem => absurd (hlt _ hmem) (by omega)) hnd
  · intro p hp
    simp only [createWorkerM] at hp ⊢
    rcases List.mem_cons.mp hp with h | h
    · omega
    · have := hlt p h
      omega
  · intro p hp
    simp only [createWorkerM] at hp ⊢
    rcases List.mem_cons.mp hp with h | h
    · subst h
      refine ⟨⟨target.id, target.keepAlive, reborn⟩, ?_, ?_, ?_⟩
      · exact alookup_aset_self _ _ _
      · exact alookup_aset_self _ _ _
      · rw [alookup_aset_self]
        rfl
    · obtain ⟨r, hr, hcch, hwk⟩ := hrec p h
      have hplt : p < s.nextPid := hlt p h
      have hpne : p ≠ s.nextPid := by omega
      have hidne : r.id ≠ target.id := hnolive p r h hr
      refine ⟨r, ?_, ?_, ?_⟩
      · rw [alookup_aset_ne _ _ hpne]
        exact hr
      · rw [alookup_aset_ne _ _ hidne]
        exact hcch
      · rw [alookup_aset_ne _ _ hidne]
        exact hwk
  · intro i hh hlk
    simp only [createWorkerM] at hlk
    by_cases hk : i = target.id
    · subst hk
      rw [alookup_aset_self] at hlk
      injection hlk with he
      rw [← he]
    · rw [alookup_aset_ne _ _ hk] at hlk
      exact hid i hh hlk

theorem wf_step {s : MState} {a : MasterStep} {s' : MState} {evs : List MasterEvent}
    (hwf : WFState s) (hstep : masterStep s a = some (s', evs)) : WFState s' := by
  obtain ⟨hnd, hlt, hrec, hid⟩ := hwf
  cases a with
  | construct id keepAlive =>
    cases hreg : alookup id s.workers with
    | none =>
      simp only [masterStep, hreg, Option.isNone_none, if_true, Option.some.injEq,
        Prod.mk.injEq] at hstep
      obtain ⟨hs, _⟩ := hstep
      subst hs
      refine wf_createWorkerM _ _ ⟨hnd, hlt, hrec, hid⟩ ?_
      intro p r hp hr hrid
      obtain ⟨r', hr', _, hwk⟩ := hrec p hp
      have : r' = r := by
        have := hr'.symm.trans hr
        injection this
      subst this
      rw [hrid] at hwk
      simp [hreg] at hwk
    | some h0 =>
      simp only [masterStep, hreg, Option.isNone_some, Bool.false_eq_true, if_false,
        Option.some.injEq, Prod.mk.injEq] at hstep
      obtain ⟨hs, _⟩ := hstep
      subst hs
      exact ⟨hnd, hlt, hrec, hid⟩
  | clusterOnline pid =>
    by_cases hlv : pid ∈ s.live
    · cases hr : alookup pid s.pids with
      | none => simp [masterStep, hlv, hr] at hstep
      | some r =>
        cases hw : alookup r.id s.workers with
        | none => simp [masterStep, hlv, hr, hw] at hstep
        | some h =>
          rw [masterStep_online_eq hlv hr hw] at hstep
          simp only [onlineTransition, Option.some.injEq, Prod.mk.injEq] at hstep
          obtain ⟨hs, _⟩ := hstep
          subst hs
          refine ⟨hnd, hlt, ?_, ?_⟩
          · intro p hp
            obtain ⟨rq, hrq, hcq, hwq⟩ := hrec p hp
            exact ⟨rq, hrq, hcq, alookup_aset_isSome _ _ _ hwq⟩
          · intro i hh hlk
            by_cases hk : i = r.id
            · subst hk
              rw [alookup_aset_self] at hlk
              injection hlk with he
              rw [← he]
              simpa using hid r.id h hw
            · rw [alookup_aset_ne _ _ hk] at hlk
              exact hid i hh hlk
    · simp [masterStep, hlv] at hstep
  | clusterExit pid code signal =>
    by_cases hlv : pid ∈ s.live
    · cases hr : alookup pid s.pids with
      | none => simp [masterStep, hlv, hr] at hstep
      | some r =>
        cases hw : alookup r.id s.workers with
        | none => simp [masterStep, hlv, hr, hw] at hstep
        | some h =>
          rw [masterStep_exit_eq hlv hr hw] at hstep
          have hndE : (s.live.erase pid).Nodup := hnd.erase pid
          have hmemE : ∀ p, p ∈ s.live.erase pid → p ∈ s.live ∧ p ≠ pid := by
            intro p hp
            exact ⟨List.mem_of_mem_erase hp, ((List.Nodup.mem_erase_iff hnd).mp hp).1⟩
          have hERid : ∀ p rp, p ∈ s.live.erase pid → alookup p s.pids = some rp →
              rp.id ≠ r.id := by
            intro p rp hp hrp hcontra
            obtain ⟨hpl, hpne⟩ := hmemE p hp
            obtain ⟨rp', hrp', hcp, _⟩ := hrec p hpl
            have : rp' = rp := by
              have := hrp'.symm.trans hrp
              injection this
            subst this
            obtain ⟨r', hr', hcr, _⟩ := hrec pid hlv
            have : r' = r := by
              have := hr'.symm.trans hr
              injection this
            subst this
            rw [hcontra] at hcp
            rw [hcp] at hcr
            injection hcr with he
            exact hpne he
          have hwfdead : WFState { s with live := s.live.erase pid } := by
            refine ⟨hndE, ?_, ?_, hid⟩
            · intro p hp
              exact hlt p (hmemE p hp).1
            · intro p hp
              exact hrec p (hmemE p hp).1
          simp only [exitTransition] at hstep
          by_cases hcl : exitRespawns code signal r.keepAlive
          · rw [if_pos hcl] at hstep
            simp only [Option.some.injEq, Prod.mk.injEq] at hstep
            obtain ⟨hs, _⟩ := hstep
            subst hs
            refine wf_createWorkerM _ _ hwfdead ?_
            intro p rp hp hrp
            rw [hid _ _ hw]
            exact hERid p rp hp hrp
          · rw [if_neg hcl] at hstep
            simp only [Option.some.injEq, Prod.mk.injEq] at hstep
            obtain ⟨hs, _⟩ := hstep
            subst hs
            refine ⟨hndE, ?_, ?_, ?_⟩
            · intro p hp
              exact hlt p (hmemE p hp).1
            · intro p hp
              obtain ⟨rp, hrp, hcp, hwp⟩ := hrec p (hmemE p hp).1
              have hne : rp.id ≠ r.id := hERid p rp hp hrp
              refine ⟨rp, hrp, ?_, ?_⟩
              · rw [alookup_aremove_ne _ hne]
                exact hcp
              · rw [alookup_aremove_ne _ hne]
                exact hwp
            · intro i hh hlk
              by_cases hk : i = r.id
              · subst hk
                rw [alookup_aremove_self] at hlk
                simp at hlk
              · rw [alookup_aremove_ne _ hk] at hlk
                exact hid i hh hlk
    · simp [masterStep, hlv] at hstep
  | rebootCall id =>
    cases hw : alookup id s.workers with
    | none => simp [masterStep, hw] at hstep
    | some h =>
      cases hc : alookup id s.channels with
      | none => simp [masterStep, hw, hc] at hstep
      | some p =>
        rw [masterStep_reboot_eq hw hc] at hstep
        simp only [Option.some.injEq, Prod.mk.injEq] at hstep
        obtain ⟨hs, _⟩ := hstep
        subst hs
        refine ⟨hnd, hlt, ?_, ?_⟩
        · intro q hq
          obtain ⟨rq, hrq, hcq, hwq⟩ := hrec q hq
          exact ⟨rq, hrq, hcq, alookup_aset_isSome _ _ _ hwq⟩
        · intro i hh hlk
          by_cases hk : i = id
          · subst hk
            rw [alookup_aset_self] at hlk
            injection hlk with he
            rw [← he]
            simpa using hid _ h hw
          · rw [alookup_aset_ne _ _ hk] at hlk
            exact hid i hh hlk
  | exitCall id =>
    cases hc : alookup id s.channels with
    | none => simp [masterStep, hc] at hstep
    | some p =>
      rw [masterStep_exitCall_eq hc] at hstep
      simp only [Option.some.injEq, Prod.mk.injEq] at hstep
      obtain ⟨hs, _⟩ := hstep
      subst hs
      exact ⟨hnd, hlt, hrec, hid⟩

theorem wf_reachable {s : MState} (h : ReachableM s) : WFState s := by
  induction h with
  | init => exact wf_initial
  | step _ hstep ih => exact wf_step ih hstep

/- Claim theorems. -/

/-- Whether a master event is an invocation of the handle's own `exit`
emitter. -/
def isHandleExitEv : MasterEvent → Bool
  | MasterEvent.handleExit _ _ _ => true
  | _ => false

/-- Whether a master event is an invocation of any user-visible lifecycle
listener: a static `online` listener, a static `exit` listener, or the
handle's own `exit` emitter. -/
def isLifecycleListenerCall : MasterEvent → Bool
  | MasterEvent.staticOnline _ => true
  | MasterEvent.staticExit _ _ _ => true
  | MasterEvent.handleExit _ _ _ => true
  | _ => false

theorem respawn_cond_comm : ∀ x y z w : Bool,
    (((x || y) && z) || w) = (w || (z && (x || y))) := by decide

theorem reservedLifecycle_evExit : reservedLifecycle evExit = true := by decide

theorem handleEmitExitAttempt_nil (h : Handle) (code : Option Int)
    (signal : Option String) : handleEmitExitAttempt h code signal = [] := by
  simp [handleEmitExitAttempt, reservedLifecycle_evExit]

/-- Claim C1: on a child exit event, the lifecycle controller respawns (a
re-fork under the same id with `reborn = true`) exactly when the code is the
reboot sentinel 826, or `keepAlive` holds and the code is non-zero (an absent
code counting as zero-like, per JavaScript truthiness) or the signal is
`SIGKILL`; in every other case the exit is terminal: the handle object's
state is set to `closed` (the `closedHandle` event carries it), the internal
`target.emit("exit", …)` is swallowed by the reserved-name guard of the
overridden `emit` (so zero `exit` deliveries reach the handle's listeners),
and the `Workers` and `ClusterWorkers` entries for the id are removed. -/
theorem c1_exit_classification
    (s : MState) (pid : Nat) (r : PidRecord) (h : Handle)
    (code : Option Int) (signal : Option String) (s' : MState) (evs : List MasterEvent)
    (hlive : pid ∈ s.live) (hr : alookup pid s.pids = some r)
    (hw : alookup r.id s.workers = some h) (hhid : h.id = r.id)
    (hstep : masterStep s (MasterStep.clusterExit pid code signal) = some (s', evs)) :
    ((code == some (826 : Int) ||
        (r.keepAlive && (codeTruthy code || signal == some sigKill))) = true →
      alookup r.id s'.workers = some h ∧
      alookup r.id s'.channels = some s.nextPid ∧
      s.nextPid ∈ s'.live ∧
      alookup s.nextPid s'.pids = some ⟨r.id, h.keepAlive, true⟩ ∧
      s'.nextPid = s.nextPid + 1 ∧
      (evs.all fun e => !(isHandleExitEv e)) = true) ∧
    ((code == some (826 : Int) ||
        (r.keepAlive && (codeTruthy code || signal == some sigKill))) = false →
      alookup r.id s'.workers = none ∧
      alookup r.id s'.channels = none ∧
      evs = MasterEvent.closedHandle { h with state := WorkerState.closed } ::
        (handleEmitExitAttempt { h with state := WorkerState.closed } code signal ++
          (if staticExitForwards code r.keepAlive = true
            then [MasterEvent.staticExit r.id code signal] else [])) ∧
      (evs.countP fun ev => isHandleExitEv ev) = 0 ∧
      s'.nextPid = s.nextPid) := by
  rw [masterStep_exit_eq hlive hr hw] at hstep
  injection hstep with hpair
  have key : exitRespawns code signal r.keepAlive =
      (code == some (826 : Int) ||
        (r.keepAlive && (codeTruthy code || signal == some sigKill))) := by
    unfold exitRespawns
    exact respawn_cond_comm _ _ _ _
  constructor
  · intro hc
    have hresp : exitRespawns code signal r.keepAlive = true := by
      rw [key]
      exact hc
    simp only [exitTransition, hresp, if_true] at hpair
    injection hpair with hs hevs
    subst hs
    subst hevs
    refine ⟨?_, ?_, ?_, ?_, rfl, ?_⟩
    · simp only [createWorkerM]
      rw [hhid]
      exact alookup_aset_self _ _ _
    · simp only [createWorkerM]
      rw [hhid]
      exact alookup_aset_self _ _ _
    · simp only [createWorkerM]
      exact List.mem_cons_self _ _
    · simp only [createWorkerM]
      rw [hhid]
      exact alookup_aset_self _ _ _
    · cases hsf : staticExitForwards code r.keepAlive <;> simp [hsf, isHandleExitEv]
  · intro hc
    have hresp : exitRespawns code signal r.keepAlive = false := by
      rw [key]
      exact hc
    simp only [exitTransition, hresp, Bool.false_eq_true, if_false] at hpair
    injection hpair with hs hevs
    subst hs
    subst hevs
    refine ⟨alookup_aremove_self _ _, alookup_aremove_self _ _, rfl, ?_, rfl⟩
    cases hsf : staticExitForwards code r.keepAlive <;>
      simp [hsf, handleEmitExitAttempt_nil, List.countP_cons, isHandleExitEv]

/- Concrete sample data used by witnesses and counterexamples. -/

def idA : String := "a"

def idB : String := "b"

def evPing : String := "ping"

/-- A keep-alive handle for worker `"a"`, online, no receivers set, with two
registered listeners. -/
def hA : Handle := ⟨idA, true, WorkerState.online, none, [1, 2]⟩

/-- A master state with the single keep-alive worker `"a"` online as child
pid 0. -/
def c1SampleState : MState :=
  ⟨[(idA, hA)], [(idA, 0)], [(0, ⟨idA, true, false⟩)], [0], 1⟩

/-- `c1SampleState` after child pid 0 crashed with exit code 1 and was
respawned as child pid 1. -/
def c1SampleState' : MState :=
  ⟨[(idA, hA)], [(idA, 1)], [(1, ⟨idA, true, true⟩), (0, ⟨idA, true, false⟩)], [1], 2⟩

/-- Witness for C1 at a concrete crash of a keep-alive worker. -/
theorem c1_exit_classification_witness :
    alookup idA c1SampleState'.workers = some hA ∧
    alookup idA c1SampleState'.channels = some 1 ∧
    (1 : Nat) ∈ c1SampleState'.live ∧
    alookup 1 c1SampleState'.pids = some ⟨idA, true, true⟩ ∧
    c1SampleState'.nextPid = 2 ∧
    (([] : List MasterEvent).all fun e => !(isHandleExitEv e)) = true :=
  (c1_exit_classification c1SampleState 0 ⟨idA, true, false⟩ hA (some 1) none
    c1SampleState' [] (by decide) (by decide) (by decide) (by decide) (by decide)).1
    (by decide)

/-- Claim C2: when a keep-alive worker crashes with a truthy (non-zero) exit
code, the exit respawns it; after the respawned child's `online` the handle
registered for the id is the same handle with the same listener list (same
length, same order), and no user-visible lifecycle listener — static `online`,
static `exit`, or the handle's own `exit` emitter — is invoked in either
step. -/
theorem c2_listener_preservation
    (s : MState) (pid : Nat) (r : PidRecord) (h : Handle)
    (code : Option Int) (signal : Option String)
    (s1 : MState) (evs1 : List MasterEvent) (s2 : MState) (evs2 : List MasterEvent)
    (hlive : pid ∈ s.live) (hr : alookup pid s.pids = some r)
    (hw : alookup r.id s.workers = some h) (hhid : h.id = r.id)
    (hka : r.keepAlive = true) (hcode : codeTruthy code = true)
    (h1 : masterStep s (MasterStep.clusterExit pid code signal) = some (s1, evs1))
    (h2 : masterStep s1 (MasterStep.clusterOnline s.nextPid) = some (s2, evs2)) :
    alookup r.id s2.workers = some { h with state := WorkerState.online } ∧
    ({ h with state := WorkerState.online } : Handle).listeners = h.listeners ∧
    ((evs1 ++ evs2).all fun e => !(isLifecycleListenerCall e)) = true := by
  have hresp : exitRespawns code signal r.keepAlive = true := by
    simp [exitRespawns, hka, hcode]
  have hsf : staticExitForwards code r.keepAlive = false := by
    simp [staticExitForwards, hka, hcode]
  rw [masterStep_exit_eq hlive hr hw] at h1
  simp only [exitTransition, hresp, if_true, hsf, Bool.false_eq_true, if_false,
    Option.some.injEq, Prod.mk.injEq] at h1
  obtain ⟨hs1, hevs1⟩ := h1
  subst hs1
  subst hevs1
  have hlv2 : s.nextPid ∈ ((createWorkerM { s with live := s.live.erase pid } h true).1).live := by
    simp only [createWorkerM]
    exact List.mem_cons_self _ _
  have hr2 : alookup s.nextPid
      ((createWorkerM { s with live := s.live.erase pid } h true).1).pids =
      some ⟨h.id, h.keepAlive, true⟩ := by
    simp only [createWorkerM]
    exact alookup_aset_self _ _ _
  have hw2 : alookup (PidRecord.mk h.id h.keepAlive true).id
      ((createWorkerM { s with live := s.live.erase pid } h true).1).workers = some h := by
    simp only [createWorkerM]
    exact alookup_aset_self _ _ _
  rw [masterStep_online_eq hlv2 hr2 hw2] at h2
  simp only [onlineTransition, Option.some.injEq, Prod.mk.injEq] at h2
  obtain ⟨hs2, hevs2⟩ := h2
  subst hs2
  subst hevs2
  refine ⟨?_, rfl, ?_⟩
  · simp only [createWorkerM]
    rw [hhid] at *
    exact alookup_aset_self _ _ _
  · simp [isLifecycleListenerCall]

/-- Witness for C2 at a concrete crash-and-respawn of the keep-alive worker
`"a"` carrying two listeners. -/
theorem c2_listener_preservation_witness :
    alookup idA c1SampleState'.workers = some hA ∧
    hA.listeners = hA.listeners ∧
    ((([] : List MasterEvent) ++
      [MasterEvent.sent idA
        (ChildMsg.obj evOnline [Value.handleDesc idA true WorkerState.online])]).all
      fun e => !(isLifecycleListenerCall e)) = true :=
  c2_listener_preservation c1SampleState 0 ⟨idA, true, false⟩ hA (some 1) none
    c1SampleState' [] c1SampleState'
    [MasterEvent.sent idA (ChildMsg.obj evOnline [Value.handleDesc idA true WorkerState.online])]
    (by decide) (by decide) (by decide) (by decide) (by decide) (by decide)
    (by decide) (by decide)

/-- A keep-alive-off handle for worker `"a"`, online, no listeners. -/
def hA0 : Handle := ⟨idA, false, WorkerState.online, none, []⟩

/-- A master state with the single keep-alive-off worker `"a"` online as
child pid 0. -/
def c3SampleState : MState :=
  ⟨[(idA, hA0)], [(idA, 0)], [(0, ⟨idA, false, false⟩)], [0], 1⟩

/-- `c3SampleState` after child pid 0 exited with the reboot sentinel 826 and
was respawned as child pid 1. -/
def c3SampleState' : MState :=
  ⟨[(idA, hA0)], [(idA, 1)], [(1, ⟨idA, false, true⟩), (0, ⟨idA, false, false⟩)], [1], 2⟩

/-- Counterexample to C3 as stated: when `keepAlive` is off, an exit with the
reboot sentinel 826 does respawn, yet it also invokes the static `exit`
listener (the guard `!code || (code && !keepAlive)` passes), so a user `exit`
listener does fire in a reboot cycle of a keep-alive-off worker. -/
theorem c3_static_exit_on_reboot_counterexample :
    masterStep c3SampleState (MasterStep.clusterExit 0 (some 826) none) =
      some (c3SampleState', [MasterEvent.staticExit idA (some 826) none]) := by decide

/-- Claim C3 (amended): `reboot()` on a master-side handle sets its state to
`closed` and sends the bare string `"----reboot----"`; a worker process
receiving that bare string exits with code 826; an exit with code 826 triggers
exactly one respawn under the same id and never fires the handle's own `exit`
event; the static `exit` listener stays silent when `keepAlive` is true, but
fires when `keepAlive` is false. -/
theorem c3_reboot_sentinel
    (s : MState) (id : String) (h : Handle) (p : Nat)
    (sE : MState) (pidE : Nat) (r : PidRecord) (hE : Handle)
    (signal : Option String) (s1 : MState) (evs1 : List MasterEvent)
    (hw : alookup id s.workers = some h) (hc : alookup id s.channels = some p)
    (hliveE : pidE ∈ sE.live) (hrE : alookup pidE sE.pids = some r)
    (hwE : alookup r.id sE.workers = some hE) (hhid : hE.id = r.id)
    (hstep : masterStep sE (MasterStep.clusterExit pidE (some 826) signal) =
      some (s1, evs1)) :
    masterStep s (MasterStep.rebootCall id) =
      some ({ s with workers := aset id { h with state := WorkerState.closed } s.workers },
            [MasterEvent.sent id (ChildMsg.str ctlReboot)]) ∧
    workerOnMessage (ChildMsg.str ctlReboot) = WorkerAction.exitProcess 826 ∧
    alookup r.id s1.channels = some sE.nextPid ∧
    sE.nextPid ∈ s1.live ∧
    s1.nextPid = sE.nextPid + 1 ∧
    alookup sE.nextPid s1.pids = some ⟨r.id, hE.keepAlive, true⟩ ∧
    evs1 = (if r.keepAlive = true then []
            else [MasterEvent.staticExit r.id (some 826) signal]) := by
  rw [masterStep_exit_eq hliveE hrE hwE] at hstep
  have hresp : exitRespawns (some 826) signal r.keepAlive = true := by
    simp [exitRespawns]
  simp only [exitTransition, hresp, if_true, Option.some.injEq, Prod.mk.injEq] at hstep
  obtain ⟨hs1, hevs1⟩ := hstep
  subst hs1
  subst hevs1
  refine ⟨masterStep_reboot_eq hw hc, rfl, ?_, ?_, rfl, ?_, ?_⟩
  · simp only [createWorkerM]
    rw [hhid]
    exact alookup_aset_self _ _ _
  · simp only [createWorkerM]
    exact List.mem_cons_self _ _
  · simp only [createWorkerM]
    rw [hhid]
    exact alookup_aset_self _ _ _
  · cases hk : r.keepAlive <;> simp [staticExitForwards, codeTruthy, hk]

/-- Witness for the amended C3 at a concrete reboot cycle of the
keep-alive-off worker `"a"`. -/
theorem c3_reboot_sentinel_witness :
    masterStep c3SampleState (MasterStep.rebootCall idA) =
      some ({ c3SampleState with
          workers := aset idA ⟨idA, false, WorkerState.closed, none, []⟩ c3SampleState.workers },
        [MasterEvent.sent idA (ChildMsg.str ctlReboot)]) ∧
    workerOnMessage (ChildMsg.str ctlReboot) = WorkerAction.exitProcess 826 ∧
    alookup idA c3SampleState'.channels = some 1 ∧
    (1 : Nat) ∈ c3SampleState'.live ∧
    c3SampleState'.nextPid = 2 ∧
    alookup 1 c3SampleState'.pids = some ⟨idA, false, true⟩ ∧
    [MasterEvent.staticExit idA (some 826) none] =
      (if (false = true) then [] else [MasterEvent.staticExit idA (some 826) none]) :=
  c3_reboot_sentinel c3SampleState idA hA0 0 c3SampleState 0 ⟨idA, false, false⟩ hA0 none
    c3SampleState' [MasterEvent.staticExit idA (some 826) none]
    (by decide) (by decide) (by decide) (by decide) (by decide) (by decide) (by decide)

def sigTerm : String := "SIGTERM"

/-- The terminal state after the keep-alive-off worker `"a"` of
`c3SampleState` was killed: both the `Workers` and `ClusterWorkers` entries
are gone. -/
def c4SampleState' : MState :=
  ⟨[], [], [(0, ⟨idA, false, false⟩)], [], 1⟩

/-- Claim C4 (code-bug evaluation): killing the keep-alive-off worker `"a"`
(exit with absent code, signal `SIGTERM`) takes the terminal path — the
handle object is closed and both registry entries removed — yet zero `exit`
events are delivered to the listeners registered via `handle.on("exit", …)`:
the controller's internal `target.emit("exit", …)` dispatches to the
overridden `emit`, whose reserved-name guard returns `false` before any
listener dispatch, as the fourth conjunct evaluates.  The drop-after part of
the claim does hold: a subsequent non-reserved `emit` through the id returns
`true` and sends nothing. -/
theorem c4_exit_never_delivered :
    masterStep c3SampleState (MasterStep.exitCall idA) = some (c3SampleState, []) ∧
    masterStep c3SampleState (MasterStep.clusterExit 0 none (some sigTerm)) =
      some (c4SampleState',
        [MasterEvent.closedHandle ⟨idA, false, WorkerState.closed, none, []⟩,
         MasterEvent.staticExit idA none (some sigTerm)]) ∧
    (([MasterEvent.closedHandle ⟨idA, false, WorkerState.closed, none, []⟩,
       MasterEvent.staticExit idA none (some sigTerm)].countP
      fun ev => isHandleExitEv ev) = 0) ∧
    masterEmit c4SampleState'.channels ⟨idA, false, WorkerState.closed, none, []⟩ evExit [] =
      ⟨false, [], ⟨idA, false, WorkerState.closed, none, []⟩⟩ ∧
    masterEmit c4SampleState'.channels hA0 evPing [] = ⟨true, [], hA0⟩ := by decide

/-- The handle `hA0` after `to("b")`: the `receivers` slot holds `["b"]`. -/
def targetedHandle : Handle := Handle.to hA0 [ToArg.idArg idB]

/-- Claim C5 (code-bug evaluation): after `to("b")`, a worker-side `emit`
sends one `----transmit----` wrapper carrying exactly the listed id and
returns `true`, but leaves `receivers` still set to `["b"]` — the worker
branch of `emit` in `src/index.js` never clears the slot, so the set is not
one-shot there (the master branch, evaluated last, does clear it). -/
theorem c5_receivers_not_cleared :
    targetedHandle.receivers = some [idB] ∧
    (workerEmit targetedHandle evPing []).result = true ∧
    (workerEmit targetedHandle evPing []).sends =
      [WorkerToMasterMsg.transmit idA [idB] evPing []] ∧
    (workerEmit targetedHandle evPing []).handle.receivers = some [idB] ∧
    (masterEmit [(idB, 1)] targetedHandle evPing []).sends =
      [(idB, ChildMsg.obj evPing [])] ∧
    (masterEmit [(idB, 1)] targetedHandle evPing []).handle.receivers = none := by decide

/-- Counterexample to C6 as stated: `emit` with the control-plane name
`"----reboot----"` returns `true` and does produce channel traffic, in both
roles — only the three lifecycle names are masked. -/
theorem c6_control_name_counterexample :
    (masterEmit [(idA, 0)] hA0 ctlReboot []).result = true ∧
    (masterEmit [(idA, 0)] hA0 ctlReboot []).sends = [(idA, ChildMsg.obj ctlReboot [])] ∧
    (workerEmit hA0 ctlReboot []).result = true ∧
    (workerEmit hA0 ctlReboot []).sends = [WorkerToMasterMsg.user idA ctlReboot []] := by decide

/-- Claim C6 (amended): for every name in `{online, error, exit}`,
`handle.emit` with that name returns `false` and sends nothing over any
channel, in both the master and the worker process; control-plane `----`
names are not filtered by `emit`. -/
theorem c6_lifecycle_masking (channels : List (String × Nat)) (h : Handle)
    (d : List Value) :
    masterEmit channels h evOnline d = ⟨false, [], h⟩ ∧
    masterEmit channels h evError d = ⟨false, [], h⟩ ∧
    masterEmit channels h evExit d = ⟨false, [], h⟩ ∧
    workerEmit h evOnline d = ⟨false, [], h⟩ ∧
    workerEmit h evError d = ⟨false, [], h⟩ ∧
    workerEmit h evExit d = ⟨false, [], h⟩ :=
  ⟨rfl, rfl, rfl, rfl, rfl, rfl⟩

/-- A handle still in state `connecting`. -/
def connectingHandle : Handle := ⟨idA, false, WorkerState.connecting, none, []⟩

/-- Counterexample to C7 as stated: the main build's master-side `getWorkers`
(`cb(getValues(Workers))`, invoked synchronously) returns every registered
handle, including one whose state is `connecting`. -/
theorem c7_main_includes_connecting_counterexample :
    getWorkersMainMaster [(idA, connectingHandle)] = [connectingHandle] ∧
    ¬ (connectingHandle.state = WorkerState.online) := by decide

/-- Claim C7 (amended): the dist build's master-side `getWorkers` yields
exactly the registered handles whose state is `online`; the main build's
returns every registered handle with no state filter. -/
theorem c7_dist_getWorkers_online (ws : List (String × Handle)) (h : Handle) :
    h ∈ getWorkersDistMaster ws ↔ h ∈ ws.map Prod.snd ∧ h.state = WorkerState.online := by
  simp [getWorkersDistMaster, Handle.isConnected, List.mem_filter, beq_iff_eq]

/-- Claim C8: in every reachable master state, two live children whose pid
records name the same worker id are the same child (at most one live child
per id), and constructing a `Worker` for an id that is still registered (as
every non-closed handle is) leaves the state unchanged — no second child is
forked. -/
theorem c8_unique_live_child
    (s : MState) (p1 p2 : Nat) (r1 r2 : PidRecord) (cid : String) (ck : Bool)
    (hreach : ReachableM s)
    (hp1 : p1 ∈ s.live) (hp2 : p2 ∈ s.live)
    (hr1 : alookup p1 s.pids = some r1) (hr2 : alookup p2 s.pids = some r2)
    (hsameid : r1.id = r2.id)
    (hreg : (alookup cid s.workers).isSome) :
    p1 = p2 ∧ masterStep s (MasterStep.construct cid ck) = some (s, []) := by
  obtain ⟨_, _, hrec, _⟩ := wf_reachable hreach
  obtain ⟨r1', hr1', hc1, _⟩ := hrec p1 hp1
  obtain ⟨r2', hr2', hc2, _⟩ := hrec p2 hp2
  have e1 : r1' = r1 := by
    have := hr1'.symm.trans hr1
    injection this
  have e2 : r2' = r2 := by
    have := hr2'.symm.trans hr2
    injection this
  subst e1
  subst e2
  rw [hsameid] at hc1
  have := hc1.symm.trans hc2
  constructor
  · injection this
  · exact masterStep_construct_registered hreg

/-- The reachable state just after `new Worker("a", true)` in a fresh
master. -/
def c8SampleState : MState :=
  ⟨[(idA, ⟨idA, true, WorkerState.connecting, none, []⟩)], [(idA, 0)],
   [(0, ⟨idA, true, false⟩)], [0], 1⟩

/-- Witness for C8 at the concrete reachable state `c8SampleState`. -/
theorem c8_unique_live_child_witness :
    (0 : Nat) = 0 ∧
    masterStep c8SampleState (MasterStep.construct idA false) = some (c8SampleState, []) :=
  c8_unique_live_child c8SampleState 0 0 ⟨idA, true, false⟩ ⟨idA, true, false⟩ idA false
    (ReachableM.step ReachableM.init
      (by decide :
        masterStep initialMState (MasterStep.construct idA true) = some (c8SampleState, [])))
    (by decide) (by decide) (by decide) (by decide) (by decide) (by decide)

/-- Claim C9: each master-only static (`emit`, `to`, `broadcast`,
`getWorkers` with a callback; non-reserved event name where applicable)
throws a synchronous `ReferenceError` when called in a worker process,
sending nothing and leaving the class-level `receivers` slot untouched; and
the static `getWorker` throws a synchronous `Error` when called in the master
process. -/
theorem c9_master_only_statics
    (channels : List (String × Nat)) (rcv : Option (List String))
    (e : String) (d : List Value) (args : List ToArg) (ws : List (String × Handle))
    (he : reservedLifecycle e = false) :
    staticEmit Role.worker channels rcv e d =
      ⟨Except.error (CallError.refError evEmitName), [], rcv⟩ ∧
    staticTo Role.worker rcv args = Except.error (CallError.refError evToName) ∧
    staticBroadcast Role.worker channels e d =
      ⟨Except.error (CallError.refError evBroadcastName), []⟩ ∧
    staticGetWorkersMain Role.worker ws =
      Except.error (CallError.refError evGetWorkersName) ∧
    staticGetWorker Role.master ws =
      Except.error (CallError.usageError evGetChannelName) := by
  refine ⟨?_, rfl, ?_, rfl, rfl⟩
  · simp [staticEmit, he]
  · simp [staticBroadcast, he]

/-- Witness for C9 at a concrete non-reserved event name. -/
theorem c9_master_only_statics_witness :
    staticEmit Role.worker [] none evPing [] =
      ⟨Except.error (CallError.refError evEmitName), [], none⟩ ∧
    staticTo Role.worker none [] = Except.error (CallError.refError evToName) ∧
    staticBroadcast Role.worker [] evPing [] =
      ⟨Except.error (CallError.refError evBroadcastName), []⟩ ∧
    staticGetWorkersMain Role.worker [] =
      Except.error (CallError.refError evGetWorkersName) ∧
    staticGetWorker Role.master [] =
      Except.error (CallError.usageError evGetChannelName) :=
  c9_master_only_statics [] none evPing [] [] [] (by decide)

/-- Claim C10: in a worker process, the static `emit` and the static
`broadcast` with a reserved lifecycle name return `false` without throwing —
the reserved-name check runs before the master-only role check, so the
`ReferenceError` branch is unreachable for those names. -/
theorem c10_reserved_before_role_check
    (channels : List (String × Nat)) (rcv : Option (List String)) (d : List Value) :
    staticEmit Role.worker channels rcv evOnline d = ⟨Except.ok false, [], rcv⟩ ∧
    staticEmit Role.worker channels rcv evError d = ⟨Except.ok false, [], rcv⟩ ∧
    staticEmit Role.worker channels rcv evExit d = ⟨Except.ok false, [], rcv⟩ ∧
    staticBroadcast Role.worker channels evOnline d = ⟨Except.ok false, []⟩ ∧
    staticBroadcast Role.worker channels evError d = ⟨Except.ok false, []⟩ ∧
    staticBroadcast Role.worker channels evExit d = ⟨Except.ok false, []⟩ :=
  ⟨rfl, rfl, rfl, rfl, rfl, rfl⟩
